import Mathlib

/-!
Verification of the resilient external-data-access layer of a fantasy-sports
MCP server: the sliding-window rate limiter, the retry executor with
exponential backoff, the cache-fronted fetch operations, the parallel
multi-league batch fetch, the player transformation, the user-team lookup,
and the background token lifecycle manager.

All definitions are shallow embeddings of the Python source
(src/agents/data_fetcher.py and src/agents/auto_token_manager.py); time is
modelled as integer seconds, float backoff delays as rationals.
-/

namespace FantasyFootball

/-! ## Rate limiter (`RateLimitTracker`, data_fetcher.py lines 71-102)

`requests_per_window` and `window_seconds` are the configured capacity and
window duration; `requests_made` and `window_start` are the mutable window
bookkeeping.  `datetime.utcnow()` is modelled by an explicit `now : Int`
argument (seconds). -/

structure RateLimitTracker where
  requests_per_window : Nat
  window_seconds : Int
  requests_made : Nat
  window_start : Int
  deriving Repr, DecidableEq

/-- `RateLimitTracker.can_make_request`: lazily resets the window when
`now - window_start > window_seconds`, then reports whether
`requests_made < requests_per_window`.  Returns the answer together with the
mutated tracker. -/
def RateLimitTracker.can_make_request (t : RateLimitTracker) (now : Int) :
    Bool × RateLimitTracker :=
  if now - t.window_start > t.window_seconds then
    let t' := { t with requests_made := 0, window_start := now }
    (t'.requests_made < t'.requests_per_window, t')
  else
    (t.requests_made < t.requests_per_window, t)

/-- `RateLimitTracker.record_request`: increments `requests_made`. -/
def RateLimitTracker.record_request (t : RateLimitTracker) : RateLimitTracker :=
  { t with requests_made := t.requests_made + 1 }

/-- `RateLimitTracker.time_until_reset`: remaining time in the current window,
clamped below at zero. -/
def RateLimitTracker.time_until_reset (t : RateLimitTracker) (now : Int) : Int :=
  let remaining := t.window_start + t.window_seconds - now
  if remaining > 0 then remaining else 0

/-! ### Call traces over the limiter (for the window invariant)

An operation on the limiter is either an admission check at some instant or a
`record_request`.  `rlStep` is one operation; `rlTrace` replays a list of
operations and returns, for each step, the state before, the operation, the
state after, and (for checks) the returned boolean. -/

inductive RLOp where
  | canAt (now : Int) : RLOp
  | record : RLOp
  deriving Repr, DecidableEq

def rlStep (t : RateLimitTracker) : RLOp → RateLimitTracker × Option Bool
  | RLOp.canAt now =>
      let r := t.can_make_request now
      (r.2, some r.1)
  | RLOp.record => (t.record_request, none)

structure RLTraceEntry where
  pre : RateLimitTracker
  op : RLOp
  post : RateLimitTracker
  result : Option Bool
  deriving Repr, DecidableEq

def rlTrace (t : RateLimitTracker) : List RLOp → List RLTraceEntry
  | [] => []
  | op :: ops =>
      let r := rlStep t op
      { pre := t, op := op, post := r.1, result := r.2 } :: rlTrace r.1 ops

/-! ## Retry executor (`DataFetcherAgent._make_api_request`, lines 859-915)

The underlying call `_execute_yahoo_request` is an external effect; each
attempt's outcome is supplied by an oracle `outcomes : Nat → AttemptOutcome`
indexed by the attempt counter.  `transient` stands for
`aiohttp.ClientError` / `asyncio.TimeoutError`, `rateLimited` for a
`RateLimitError` escaping the call, `fatal` for any other exception. -/

inductive AttemptOutcome where
  | success : AttemptOutcome
  | transient : AttemptOutcome
  | rateLimited : AttemptOutcome
  | fatal : AttemptOutcome
  deriving Repr, DecidableEq

inductive ReqResult where
  | ok : ReqResult
  | rateLimitError : ReqResult
  | transientError : ReqResult
  | fatalError : ReqResult
  deriving Repr, DecidableEq

/-- Observable effects of one `_make_api_request` run: how many times
`can_make_request` was consulted, how many times `record_request` was called,
the sequence of `asyncio.sleep` durations (seconds, rationals because backoff
delays are floats), and how many attempts reached `_execute_yahoo_request`. -/
structure ReqLog where
  canCalls : Nat
  recordCalls : Nat
  sleeps : List ℚ
  attempts : Nat
  deriving Repr, DecidableEq

def ReqLog.empty : ReqLog := ⟨0, 0, [], 0⟩

/-- Log bookkeeping at the head of one loop iteration: the backoff sleep
(`attempt > 0` only) and the attempt counter. -/
def logBeforeAttempt (log : ReqLog) (attempt : Nat) (backoff : ℚ) : ReqLog :=
  let log :=
    if attempt > 0 then { log with sleeps := log.sleeps ++ [backoff ^ attempt] }
    else log
  { log with attempts := log.attempts + 1 }

/-- The retry loop body (lines 880-915).  The Python loop runs
`for attempt in range(max_retries + 1)`; we recurse on the number `k` of
retries still available, so the current attempt index is `maxRetries - k`
and the loop-exit test `attempt == max_retries` is `k = 0`.  Entry point is
`k = maxRetries`.  Before every attempt with `attempt > 0` the loop sleeps
`backoff_factor ** attempt`. -/
def retryLoop (outcomes : Nat → AttemptOutcome) (maxRetries : Nat) (backoff : ℚ)
    (t : RateLimitTracker) : Nat → ReqLog → ReqResult × RateLimitTracker × ReqLog
  | k, log =>
      let attempt := maxRetries - k
      let log := logBeforeAttempt log attempt backoff
      match outcomes attempt with
      | AttemptOutcome.success =>
          (ReqResult.ok, t.record_request,
            { log with recordCalls := log.recordCalls + 1 })
      | AttemptOutcome.transient =>
          match k with
          | 0 => (ReqResult.transientError, t, log)
          | k' + 1 => retryLoop outcomes maxRetries backoff t k' log
      | AttemptOutcome.rateLimited => (ReqResult.rateLimitError, t, log)
      | AttemptOutcome.fatal => (ReqResult.fatalError, t, log)

/-- `DataFetcherAgent._make_api_request` (lines 859-915): after acquiring the
semaphore, one rate-limit admission check; if denied, wait
`min(time_until_reset, 300)` (only when positive), re-check once, and raise
`RateLimitError` if still denied; otherwise run the retry loop.  Time is
explicit: the clock starts at `now` and sleeping advances it by the slept
amount. -/
def makeApiRequest (t : RateLimitTracker) (now : Int)
    (outcomes : Nat → AttemptOutcome) (maxRetries : Nat) (backoff : ℚ) :
    ReqResult × RateLimitTracker × ReqLog :=
  let c1 := t.can_make_request now
  if c1.1 then
    let log : ReqLog := { ReqLog.empty with canCalls := 1 }
    retryLoop outcomes maxRetries backoff c1.2 maxRetries log
  else
    let wait := c1.2.time_until_reset now
    let slept : List ℚ := if wait > 0 then [(min wait 300 : Int)] else []
    let now2 := now + (if wait > 0 then min wait 300 else 0)
    let c2 := c1.2.can_make_request now2
    let log : ReqLog := { ReqLog.empty with canCalls := 2, sleeps := slept }
    if c2.1 then
      retryLoop outcomes maxRetries backoff c2.2 maxRetries log
    else
      (ReqResult.rateLimitError, c2.2, log)

/-! ## Python dict as an association list

Python dict assignment `d[k] = v` overwrites in place when the key exists and
appends otherwise (insertion order preserved). -/

def dictInsert {β : Type} (d : List (String × β)) (k : String) (v : β) :
    List (String × β) :=
  if (d.lookup k).isSome then
    d.map (fun p => if p.1 = k then (k, v) else p)
  else
    d ++ [(k, v)]

def applyUpdates {β : Type} (d : List (String × β))
    (updates : List (String × β)) : List (String × β) :=
  updates.foldl (fun acc u => dictInsert acc u.1 u.2) d

/-! ## Parallel multi-league fetch
(`DataFetcherAgent.fetch_multiple_leagues_data` lines 745-799 and
`_fetch_league_data` lines 801-822)

`get_available_players` is a further fetch with its own effects; its outcome
per league is supplied by the oracle `availOracle` (`Except.error` for an
exception escaping it).  `taskFault k = some msg` models the asyncio runtime
delivering an exception as the gathered result of the task for league `k`
(this is what `return_exceptions=True` converts into a result object).
`elapsed` is the wall-clock duration of the gather, compared against the
`asyncio.wait_for` ceiling `async_timeout_seconds * len(league_keys)`. -/

inductive EntityField (α : Type) where
  | strVal (s : String)
  | payload (a : α)
  | fieldError (msg : String)
  deriving Repr, DecidableEq

/-- Result dict of `_fetch_league_data` for one league: the `league_key`
entry followed by per-data-type entries.  For the data types `roster` and
`standings` the source body is `pass`, so no entry is added; for
`available_players` the fetched payload or, when the fetch raised, the
captured `{"error": str(e)}` entry. -/
def fetchLeagueData {α : Type} (availOracle : String → Except String α)
    (league_key : String) (dataTypes : List String) :
    List (String × EntityField α) :=
  dataTypes.foldl
    (fun acc dt =>
      if dt = "available_players" then
        match availOracle league_key with
        | Except.ok a => dictInsert acc dt (EntityField.payload a)
        | Except.error e => dictInsert acc dt (EntityField.fieldError e)
      else
        acc)
    [("league_key", EntityField.strVal league_key)]

inductive BatchEntry (α : Type) where
  | entity (d : List (String × EntityField α))
  | errEntry (msg : String)
  deriving Repr, DecidableEq

/-- `fetch_multiple_leagues_data`: one task per league key, gathered with
`return_exceptions=True` under a single `asyncio.wait_for` whose ceiling is
`async_timeout_seconds * len(league_keys)`; exceptions delivered as results
become `{"error": str(e)}` entries keyed by that league, and a timeout of the
whole gather re-raises `asyncio.TimeoutError` to the caller. -/
def fetch_multiple_leagues_data {α : Type} (availOracle : String → Except String α)
    (taskFault : String → Option String) (asyncTimeoutSeconds : ℚ) (elapsed : ℚ)
    (league_keys : List String) (dataTypes : List String) :
    Except String (List (String × BatchEntry α)) :=
  if elapsed > asyncTimeoutSeconds * (league_keys.length : ℚ) then
    Except.error "asyncio.TimeoutError"
  else
    Except.ok <|
      league_keys.foldl
        (fun acc k =>
          match taskFault k with
          | some msg => dictInsert acc k (BatchEntry.errEntry msg)
          | none => dictInsert acc k
              (BatchEntry.entity (fetchLeagueData availOracle k dataTypes)))
        []

/-! ## Cache port and cache-fronted fetch operations
(`get_user_leagues` lines 184-243, `get_roster` lines 245-311)

The cache manager is an external collaborator consumed through `get` and
`set(key, value, ttl, tags)`; it is modelled as an association list of
entries.  The provider response and its transformed shape are abstracted by
the type parameter `α` (the transformation itself is embedded separately as
`transform_yahoo_player`); `resp` is the value the miss path would obtain
and store.  `outcomes` drives the retry executor exactly as in
`makeApiRequest`; `APIRequest` defaults are `max_retries = 3`,
`backoff_factor = 2.0`. -/

structure CacheEntry (α : Type) where
  value : α
  ttl : Int
  tags : List String
  deriving Repr, DecidableEq

structure FetchState (α : Type) where
  cache : List (String × CacheEntry α)
  tracker : RateLimitTracker
  now : Int
  deriving Repr, DecidableEq

def cacheGet {α : Type} (c : List (String × CacheEntry α)) (k : String) :
    Option α :=
  (c.lookup k).map CacheEntry.value

def cacheSet {α : Type} (c : List (String × CacheEntry α)) (k : String)
    (v : α) (ttl : Int) (tags : List String) : List (String × CacheEntry α) :=
  dictInsert c k ⟨v, ttl, tags⟩

/-- The cache key `roster:{league_key}:{team_key}:{week or current}`. -/
def rosterCacheKey (league_key team_key : String) (week : Option Nat) : String :=
  "roster:" ++ league_key ++ ":" ++ team_key ++ ":" ++
    (match week with | some w => toString w | none => "current")

/-- The cache key `user_leagues:{game_key or all}`. -/
def userLeaguesCacheKey (game_key : Option String) : String :=
  "user_leagues:" ++ (match game_key with | some g => g | none => "all")

/-- `DataFetcherAgent.get_roster`: derive the cache key, return the cached
value on a hit (`is not None`), otherwise run `_make_api_request` and cache
the transformed result with a two-hour TTL.  The returned `ReqLog` records
the rate-limiter and network interactions performed by the call. -/
def get_roster {α : Type} (st : FetchState α) (outcomes : Nat → AttemptOutcome)
    (resp : α) (league_key team_key : String) (week : Option Nat) :
    Except String α × FetchState α × ReqLog :=
  let cache_key := rosterCacheKey league_key team_key week
  match cacheGet st.cache cache_key with
  | some v => (Except.ok v, st, ReqLog.empty)
  | none =>
      let r := makeApiRequest st.tracker st.now outcomes 3 2
      match r.1 with
      | ReqResult.ok =>
          let c' := cacheSet st.cache cache_key resp (2 * 3600)
            ["roster", "yahoo_api", "league:" ++ league_key]
          (Except.ok resp, { st with cache := c', tracker := r.2.1 }, r.2.2)
      | _ => (Except.error "request failed", { st with tracker := r.2.1 }, r.2.2)

/-- `DataFetcherAgent.get_user_leagues`: same cache-first shape with key
`user_leagues:{game_key or all}` and a four-hour TTL. -/
def get_user_leagues {α : Type} (st : FetchState α)
    (outcomes : Nat → AttemptOutcome) (resp : α) (game_key : Option String) :
    Except String α × FetchState α × ReqLog :=
  let cache_key := userLeaguesCacheKey game_key
  match cacheGet st.cache cache_key with
  | some v => (Except.ok v, st, ReqLog.empty)
  | none =>
      let r := makeApiRequest st.tracker st.now outcomes 3 2
      match r.1 with
      | ReqResult.ok =>
          let c' := cacheSet st.cache cache_key resp (4 * 3600)
            ["user_leagues", "yahoo_api"]
          (Except.ok resp, { st with cache := c', tracker := r.2.1 }, r.2.2)
      | _ => (Except.error "request failed", { st with tracker := r.2.1 }, r.2.2)

/-! ## Player transformation
(`DataFetcherAgent._transform_yahoo_player`, lines 986-1134)

The yfpy player object is a heterogeneous bag of attributes probed with
`getattr` defaults; absent attributes are `Option.none`.  Python falsiness of
strings (`None` and `""` both falsy under `or`) is `strOr`.  The locally
computed `nfl_team` value has its `ValueError` caught in place and is not
used in the returned dict, so it has no observable effect.  The only
expression of the body whose exception can escape to the outer handler is
`yahoo_player.player_points.total` (a plain attribute access with no
default): `PlayerPoints.withoutTotal` models a truthy `player_points` object
lacking a `total` attribute, which raises `AttributeError` there. -/

def strOr (a b : String) : String := if a = "" then b else a

structure NameObj where
  full : Option String
  first : Option String
  last : Option String
  deriving Repr, DecidableEq

structure TeamObj where
  abbr : Option String
  deriving Repr, DecidableEq

structure OwnershipObj where
  ownership_type : Option String
  deriving Repr, DecidableEq

/-- `percent_owned` is either a primitive (`int`/`float`/`str`, with a flag
for whether its string form passes the digit test) or an object probed for a
`value` attribute. -/
inductive POVal where
  | prim (isNumericStr : Bool) (q : ℚ)
  | objV (hasValue : Bool) (isNumericStr : Bool) (q : ℚ)
  deriving Repr, DecidableEq

inductive ByeWeeks where
  | byeList (l : List Int)
  | byeObj (weeks : List Int) (week : Option Int)
  deriving Repr, DecidableEq

structure StatMeta where
  display_name : Option String
  name : Option String
  stat_id : Option Int
  deriving Repr, DecidableEq

structure StatEntry where
  stat : Option StatMeta
  stat_id : Option Int
  value : Option ℚ
  deriving Repr, DecidableEq

structure StatsObj where
  stats : List StatEntry
  deriving Repr, DecidableEq

inductive PlayerPoints where
  | withTotal (total : Option ℚ)
  | withoutTotal
  deriving Repr, DecidableEq

structure YfpyPlayer where
  player_key : Option String
  name : Option NameObj
  display_name : Option String
  display_position : Option String
  primary_position : Option String
  position : Option String
  editorial_team_abbr : Option String
  team_abbr : Option String
  team : Option TeamObj
  jersey_number : Option Int
  is_undroppable : Option Bool
  ownership : Option OwnershipObj
  percent_owned : Option POVal
  bye_weeks : Option ByeWeeks
  status : Option String
  injury_note : Option (Option String)
  player_stats : Option StatsObj
  player_points : Option PlayerPoints
  deriving Repr, DecidableEq

/-- Values of the returned player-info dict. -/
inductive PVal where
  | s (v : String)
  | q (v : ℚ)
  | b (v : Bool)
  | i (v : Int)
  | null
  | list (v : List PVal)
  | dict (v : List (String × PVal))

/-- The try-block body of `_transform_yahoo_player`: builds the player-info
dict, or raises (as `Except.error`) at the unguarded
`player_points.total` access. -/
def transformBody (p : YfpyPlayer) : Except String (List (String × PVal)) :=
  let yahoo_team := strOr (p.editorial_team_abbr.getD "")
    (strOr (p.team_abbr.getD "")
      (match p.team with | some t => t.abbr.getD "" | none => ""))
  let full_name0 : String :=
    match p.name with
    | none => ""
    | some n => strOr (n.full.getD "")
        ((n.first.getD "" ++ " " ++ n.last.getD "").trim)
  let full_name :=
    if full_name0 = "" then strOr (p.display_name.getD "") "Unknown Player"
    else full_name0
  let pos := strOr (p.display_position.getD "")
    (strOr (p.primary_position.getD "") (p.position.getD ""))
  let player_info : List (String × PVal) :=
    [("player_key", PVal.s (p.player_key.getD "")),
     ("name", PVal.s full_name),
     ("position", PVal.s pos),
     ("team", PVal.s yahoo_team),
     ("jersey_number", match p.jersey_number with
        | some j => PVal.i j
        | none => PVal.null),
     ("bye_weeks", PVal.null),
     ("is_undroppable", PVal.b (p.is_undroppable.getD false)),
     ("ownership_status", PVal.null),
     ("percent_owned", PVal.null)]
  let updOwnership : List (String × PVal) :=
    match p.ownership with
    | none => []
    | some o => [("ownership_status",
        match o.ownership_type with
        | some t => if t = "" then PVal.null else PVal.s t
        | none => PVal.null)]
  let updPercentOwned : List (String × PVal) :=
    match p.percent_owned with
    | none => []
    | some (POVal.prim isNum v) =>
        [("percent_owned", if isNum then PVal.q v else PVal.null)]
    | some (POVal.objV hasVal isNum v) =>
        [("percent_owned", if hasVal && isNum then PVal.q v else PVal.null)]
  let updByeWeeks : List (String × PVal) :=
    match p.bye_weeks with
    | none => [("bye_weeks", PVal.list [])]
    | some (ByeWeeks.byeList l) =>
        if l.isEmpty then [("bye_weeks", PVal.list [])]
        else [("bye_weeks", PVal.list (l.map PVal.i))]
    | some (ByeWeeks.byeObj weeks week) =>
        if weeks.isEmpty then
          [("bye_weeks", PVal.list [match week with
            | some w => PVal.i w
            | none => PVal.null])]
        else [("bye_weeks", PVal.list (weeks.map PVal.i))]
  let updInjuryStatus : List (String × PVal) :=
    match p.status with
    | some t => if t = "" then [("injury_status", PVal.s "Healthy")]
        else [("injury_status", PVal.s t)]
    | none => [("injury_status", PVal.s "Healthy")]
  let updInjuryNote : List (String × PVal) :=
    match p.injury_note with
    | none => []
    | some (some t) => [("injury_note", PVal.s t)]
    | some none => [("injury_note", PVal.null)]
  let updStats : List (String × PVal) :=
    match p.player_stats with
    | none => []
    | some so =>
        let statsDict := so.stats.foldl
          (fun acc st =>
            let nm0 := match st.stat with
              | some m => strOr (m.display_name.getD "") (m.name.getD "")
              | none => ""
            let nm := if nm0 = "" then
                "stat_" ++ (match st.stat_id with
                  | some j => toString j
                  | none => match st.stat with
                      | some m => (match m.stat_id with
                          | some j => toString j
                          | none => "unknown")
                      | none => "unknown")
              else nm0
            dictInsert acc nm (match st.value with
              | some v => PVal.q v
              | none => PVal.null))
          []
        if statsDict.isEmpty then [] else [("stats", PVal.dict statsDict)]
  match p.player_points with
  | some PlayerPoints.withoutTotal =>
      Except.error "AttributeError: PlayerPoints object has no attribute total"
  | some (PlayerPoints.withTotal t) =>
      Except.ok (applyUpdates player_info
        (updOwnership ++ updPercentOwned ++ updByeWeeks ++ updInjuryStatus ++
         updInjuryNote ++ updStats ++
         [("projected_points", match t with
            | some v => PVal.q v
            | none => PVal.null)]))
  | none =>
      Except.ok (applyUpdates player_info
        (updOwnership ++ updPercentOwned ++ updByeWeeks ++ updInjuryStatus ++
         updInjuryNote ++ updStats))

/-- The except-handler fallback dict of `_transform_yahoo_player`
(lines 1125-1134). -/
def minimalPlayerInfo (p : YfpyPlayer) (e : String) : List (String × PVal) :=
  [("player_key", PVal.s (p.player_key.getD "")),
   ("name", PVal.s "Unknown Player"),
   ("position", PVal.s ""),
   ("team", PVal.s ""),
   ("error", PVal.s e)]

/-- `DataFetcherAgent._transform_yahoo_player`: the body, with every escaping
exception converted to the minimal fallback dict. -/
def transform_yahoo_player (p : YfpyPlayer) : List (String × PVal) :=
  match transformBody p with
  | Except.ok d => d
  | Except.error e => minimalPlayerInfo p e

/-! ## User-team lookup
(`DataFetcherAgent.get_user_team_key`, lines 387-413)

The function consumes the team dicts produced by `get_league_teams`
(lines 360-370): `team_key` is `getattr(t, 'team_key', None)`, the ownership
flag is compared with `is True`, and manager dicts carry an optional `guid`.
`fetchResult` is the outcome of the inner `get_league_teams` call
(`Except.error` when it raised, which the enclosing handler converts to
`None`); `user_guid` is the `YAHOO_GUID` environment value (empty string when
unset, which is falsy). -/

structure ManagerEntry where
  guid : Option String
  deriving Repr, DecidableEq

structure TeamEntry where
  team_key : Option String
  is_owned_by_current_login : Option Bool
  managers : List ManagerEntry
  deriving Repr, DecidableEq

def managerGuidMatches (user_guid : String) (m : ManagerEntry) : Bool :=
  match m.guid with
  | some g => g ≠ "" && g = user_guid
  | none => false

def get_user_team_key (fetchResult : Except String (List TeamEntry))
    (user_guid : String) : Option String :=
  match fetchResult with
  | Except.error _ => none
  | Except.ok teams =>
      match teams with
      | [] => none
      | t0 :: _ =>
          match teams.find? (fun t => t.is_owned_by_current_login == some true) with
          | some t => t.team_key
          | none =>
              if user_guid ≠ "" then
                match teams.find?
                    (fun t => t.managers.any (managerGuidMatches user_guid)) with
                | some t => t.team_key
                | none => t0.team_key
              else t0.team_key

/-! ## Token lifecycle manager
(`AutoTokenManager`, auto_token_manager.py)

State visible to the claims: the held credentials, the auth state, the error
and refresh-count bookkeeping, the running flag, and how many background
loops have been launched (`asyncio.create_task(self._background_loop())`
increments it).

The collaborators `yahoo_auth.refresh_tokens` and `yahoo_auth._load_tokens`
live in src/agents/yahoo_auth.py, which is not part of the given sources;
their effects are modelled from the spec where noted. -/

inductive AuthState where
  | UNAUTHENTICATED
  | AUTHENTICATED
  | TOKEN_EXPIRED
  | REFRESH_FAILED
  deriving Repr, DecidableEq

structure YahooTokens where
  access_token : String
  refresh_token : String
  token_type : String
  expires_at : Int
  scope : String
  deriving Repr, DecidableEq

/-- Outcome of one call to the external credential-refresh capability:
success with new credentials, an exception whose text contains
`invalid_grant` (permanent grant revocation), or any other exception
(transient failure). -/
inductive RefreshOutcome where
  | success (newTokens : YahooTokens)
  | invalidGrant (msg : String)
  | transientFailure (msg : String)
  deriving Repr, DecidableEq

structure ManagerState where
  tokens : Option YahooTokens
  authState : AuthState
  lastError : Option String
  lastRefreshTime : Option Int
  refreshCount : Nat
  running : Bool
  loopCount : Nat
  deriving Repr, DecidableEq

/-- Result of one check-and-refresh cycle: the new state, the boolean the
method returns, and whether an automatic refresh attempt (a call to the
external refresh capability) was made during the cycle. -/
structure CycleResult where
  state : ManagerState
  returned : Bool
  attemptedRefresh : Bool
  deriving Repr, DecidableEq

/-- The load step of a cycle: reload persisted credentials on read, keeping
the held value when the stores are empty (modelled from the spec, the
loaders live outside src/). -/
def loadTokens (held : Option YahooTokens) (storage : Option YahooTokens) :
    Option YahooTokens :=
  match storage with
  | some t => some t
  | none => held

/-- `AutoTokenManager._check_and_refresh_tokens` (lines 113-179).

`storage` is the credential content of the durable stores (env vars and the
persisted token file) at the time of the cycle; replacing credentials
externally means changing `storage`.  Modelled from the spec where the
source is outside src/: `_load_tokens` reloads persisted credentials on
read (keeping the held value when the store is empty), `refresh_tokens`
drives Auth State to AUTHENTICATED on success, REFRESH_FAILED on a permanent
invalid_grant signal, TOKEN_EXPIRED on a transient failure, and the no-token
branch reports UNAUTHENTICATED.  Everything else (the refresh-buffer test,
the error strings, the counter updates, and which branches call the refresh
capability at all) is translated from the source.  The best-effort env-file
and launcher-config mirroring writes do not touch manager state and are
outside the model. -/
def checkAndRefreshTokens (s : ManagerState) (now : Int)
    (refreshBufferMinutes : Int) (storage : Option YahooTokens)
    (outcome : RefreshOutcome) : CycleResult :=
  let s := { s with tokens := loadTokens s.tokens storage }
  match s.tokens with
  | none =>
      { state := { s with
          lastError := some "No tokens found"
          authState := AuthState.UNAUTHENTICATED },
        returned := false, attemptedRefresh := false }
  | some tk =>
      let needsRefresh := tk.expires_at - now ≤ refreshBufferMinutes * 60
      if needsRefresh then
        match outcome with
        | RefreshOutcome.success newTk =>
            { state := { s with
                tokens := some newTk
                authState := AuthState.AUTHENTICATED
                lastRefreshTime := some now
                refreshCount := s.refreshCount + 1
                lastError := none },
              returned := true, attemptedRefresh := true }
        | RefreshOutcome.invalidGrant _ =>
            { state := { s with
                authState := AuthState.REFRESH_FAILED
                lastError := some "Refresh token expired - manual auth required" },
              returned := false, attemptedRefresh := true }
        | RefreshOutcome.transientFailure msg =>
            { state := { s with
                authState := AuthState.TOKEN_EXPIRED
                lastError := some ("Refresh failed: " ++ msg) },
              returned := false, attemptedRefresh := true }
      else
        { state := s, returned := true, attemptedRefresh := false }

/-- `AutoTokenManager.start` (lines 61-76): when already running, log a
warning and return; otherwise set the running flag, launch the background
loop (`loopCount` increments), and run one immediate check-and-refresh.
Returns the new state and whether the already-running warning was issued. -/
def managerStart (s : ManagerState) (now : Int) (refreshBufferMinutes : Int)
    (storage : Option YahooTokens) (outcome : RefreshOutcome) :
    ManagerState × Bool :=
  if s.running then (s, true)
  else
    let s1 := { s with running := true, loopCount := s.loopCount + 1 }
    ((checkAndRefreshTokens s1 now refreshBufferMinutes storage outcome).state,
     false)

/-! ## Properties used by the claim statements -/

/-- Soundness of one rate-limiter trace entry: admission granted only
strictly below capacity; the window start moves only through an admission
check whose elapsed time strictly exceeds the window duration; such a check
resets the window to `(0, now)`; and a check within the window leaves the
tracker untouched. -/
def RLEntryOK (e : RLTraceEntry) : Prop :=
  (e.result = some true → e.post.requests_made < e.post.requests_per_window) ∧
  (e.post.window_start ≠ e.pre.window_start →
    ∃ now, e.op = RLOp.canAt now ∧
      now - e.pre.window_start > e.pre.window_seconds) ∧
  (∀ now, e.op = RLOp.canAt now →
    now - e.pre.window_start > e.pre.window_seconds →
    e.post.requests_made = 0 ∧ e.post.window_start = now) ∧
  (∀ now, e.op = RLOp.canAt now →
    ¬(now - e.pre.window_start > e.pre.window_seconds) →
    e.post = e.pre)

/-- The backoff delays slept by the retry loop from the attempt numbered `a`
with `c` retries still available: `backoff ^ i` for each executed attempt
`i > 0`. -/
def sleepsFrom (backoff : ℚ) (a c : Nat) : List ℚ :=
  (if a > 0 then [backoff ^ a] else []) ++
    (match c with
      | 0 => []
      | c' + 1 => sleepsFrom backoff (a + 1) c')

/-- Property-language description of the team preference order of
`get_user_team_key` (the amended claim): a team flagged as owned by the
current login first, then — when a user GUID is configured — a team with a
matching manager GUID, otherwise the first team; `none` only for an empty
list. -/
def preferredTeam (teams : List TeamEntry) (user_guid : String) :
    Option TeamEntry :=
  match teams with
  | [] => none
  | t0 :: _ =>
      match teams.find?
          (fun t => t.is_owned_by_current_login == some true) with
      | some t => some t
      | none =>
          if user_guid ≠ "" then
            match teams.find?
                (fun t => t.managers.any (managerGuidMatches user_guid)) with
            | some t => some t
            | none => some t0
          else some t0

/-! ## Helper lemmas -/

theorem lookup_append {β : Type} (d l : List (String × β)) (k : String) :
    (d ++ l).lookup k =
      (match d.lookup k with
        | some v => some v
        | none => l.lookup k) := by
  induction d with
  | nil => simp [List.lookup]
  | cons a tl ih =>
      simp only [List.cons_append, List.lookup]
      by_cases hk : (k == a.1) = true
      · simp [hk]
      · simp only [hk]
        exact ih

theorem lookup_cons {β : Type} (k a1 : String) (a2 : β)
    (tl : List (String × β)) :
    ((a1, a2) :: tl).lookup k = (if k = a1 then some a2 else tl.lookup k) := by
  by_cases h : k = a1
  · subst h
    simp [List.lookup]
  · have hb : (k == a1) = false := beq_eq_false_iff_ne.mpr h
    simp [List.lookup, hb, h]

theorem lookup_mapOverwrite {β : Type} (d : List (String × β))
    (k k' : String) (v : β) :
    (d.map (fun p => if p.1 = k' then (k', v) else p)).lookup k =
      (if k = k' then (d.lookup k').map (fun _ => v) else d.lookup k) := by
  induction d with
  | nil => by_cases hk : k = k' <;> simp [List.lookup, hk]
  | cons a tl ih =>
      obtain ⟨a1, a2⟩ := a
      simp only [List.map_cons]
      by_cases ha : a1 = k'
      · subst ha
        by_cases hk : k = a1 <;> simp [lookup_cons, ih, hk]
      · have ha2 : ¬(k' = a1) := fun hc => ha hc.symm
        by_cases hk : k = a1
        · subst hk
          simp [lookup_cons, ha, ha2]
        · simp [lookup_cons, ih, hk, ha, ha2]

/-- Full characterization of a lookup after a Python-style dict assignment:
the assigned key reads back the new value, every other key is untouched. -/
theorem lookup_dictInsert {β : Type} (d : List (String × β))
    (k k' : String) (v : β) :
    (dictInsert d k' v).lookup k =
      (if k = k' then some v else d.lookup k) := by
  unfold dictInsert
  cases hex : d.lookup k' with
  | some w =>
      rw [if_pos (by simp [hex]), lookup_mapOverwrite]
      by_cases hk : k = k'
      · simp [hk, hex]
      · simp [hk]
  | none =>
      rw [if_neg (by simp [hex]), lookup_append]
      by_cases hk : k = k'
      · subst hk
        simp [hex, lookup_cons]
      · cases h : d.lookup k with
        | none => simp [h, lookup_cons, hk]
        | some w => simp [h, hk]

theorem lookup_applyUpdates_isSome {β : Type} (upds : List (String × β))
    (d : List (String × β)) (k : String) (h : (d.lookup k).isSome) :
    ((applyUpdates d upds).lookup k).isSome := by
  induction upds generalizing d with
  | nil => simpa [applyUpdates] using h
  | cons u rest ih =>
      simp only [applyUpdates, List.foldl_cons] at *
      apply ih
      rw [lookup_dictInsert]
      by_cases hk : k = u.1
      · simp [hk]
      · simpa [hk] using h

theorem logBeforeAttempt_attempts (log : ReqLog) (a : Nat) (b : ℚ) :
    (logBeforeAttempt log a b).attempts = log.attempts + 1 := by
  unfold logBeforeAttempt
  by_cases h : a > 0 <;> simp [h]

theorem logBeforeAttempt_recordCalls (log : ReqLog) (a : Nat) (b : ℚ) :
    (logBeforeAttempt log a b).recordCalls = log.recordCalls := by
  unfold logBeforeAttempt
  by_cases h : a > 0 <;> simp [h]

theorem logBeforeAttempt_canCalls (log : ReqLog) (a : Nat) (b : ℚ) :
    (logBeforeAttempt log a b).canCalls = log.canCalls := by
  unfold logBeforeAttempt
  by_cases h : a > 0 <;> simp [h]

theorem logBeforeAttempt_sleeps (log : ReqLog) (a : Nat) (b : ℚ) :
    (logBeforeAttempt log a b).sleeps =
      log.sleeps ++ (if a > 0 then [b ^ a] else []) := by
  unfold logBeforeAttempt
  by_cases h : a > 0 <;> simp [h]

theorem retryLoop_canCalls (outcomes : Nat → AttemptOutcome) (maxR : Nat)
    (backoff : ℚ) (t : RateLimitTracker) :
    ∀ c log,
      (retryLoop outcomes maxR backoff t c log).2.2.canCalls = log.canCalls := by
  intro c
  induction c with
  | zero =>
      intro log
      rw [retryLoop]
      cases ho : outcomes (maxR - 0) <;> simp [ho, logBeforeAttempt_canCalls]
  | succ c' ih =>
      intro log
      rw [retryLoop]
      cases ho : outcomes (maxR - (c' + 1)) <;>
        simp [ho, ih, logBeforeAttempt_canCalls]

theorem retryLoop_reaches (outcomes : Nat → AttemptOutcome) (maxR : Nat)
    (backoff : ℚ) (t : RateLimitTracker) (k : Nat) (hk : k ≤ maxR)
    (hnt : outcomes k ≠ AttemptOutcome.transient) :
    ∀ c log, c ≤ maxR → maxR - c ≤ k →
      (∀ i, maxR - c ≤ i → i < k → outcomes i = AttemptOutcome.transient) →
      (retryLoop outcomes maxR backoff t c log).1 =
        (match outcomes k with
          | AttemptOutcome.success => ReqResult.ok
          | AttemptOutcome.transient => ReqResult.transientError
          | AttemptOutcome.rateLimited => ReqResult.rateLimitError
          | AttemptOutcome.fatal => ReqResult.fatalError) ∧
      (retryLoop outcomes maxR backoff t c log).2.2.attempts =
        log.attempts + (k - (maxR - c)) + 1 ∧
      (retryLoop outcomes maxR backoff t c log).2.2.recordCalls =
        log.recordCalls +
          (if outcomes k = AttemptOutcome.success then 1 else 0) := by
  intro c
  induction c with
  | zero =>
      intro log _ hle _
      have hak : k = maxR := le_antisymm hk (by omega)
      subst hak
      rw [retryLoop]
      cases ho : outcomes (k - 0) with
      | transient => exact absurd (by simpa using ho) hnt
      | success =>
          simp [ho, show outcomes k = AttemptOutcome.success by simpa using ho,
            logBeforeAttempt_attempts, logBeforeAttempt_recordCalls]
      | rateLimited =>
          simp [ho, show outcomes k = AttemptOutcome.rateLimited by simpa using ho,
            logBeforeAttempt_attempts, logBeforeAttempt_recordCalls]
      | fatal =>
          simp [ho, show outcomes k = AttemptOutcome.fatal by simpa using ho,
            logBeforeAttempt_attempts, logBeforeAttempt_recordCalls]
  | succ c' ih =>
      intro log hc hle htr
      rw [retryLoop]
      by_cases hak : maxR - (c' + 1) = k
      · cases ho : outcomes (maxR - (c' + 1)) with
        | transient => exact absurd (hak ▸ ho) hnt
        | success =>
            simp [ho, hak ▸ ho, hak, logBeforeAttempt_attempts,
              logBeforeAttempt_recordCalls]
        | rateLimited =>
            simp [ho, hak ▸ ho, hak, logBeforeAttempt_attempts,
              logBeforeAttempt_recordCalls]
        | fatal =>
            simp [ho, hak ▸ ho, hak, logBeforeAttempt_attempts,
              logBeforeAttempt_recordCalls]
      · have halt : maxR - (c' + 1) < k := lt_of_le_of_ne hle hak
        have ho : outcomes (maxR - (c' + 1)) = AttemptOutcome.transient :=
          htr _ (le_refl _) halt
        obtain ⟨h1, h2, h3⟩ :=
          ih (logBeforeAttempt log (maxR - (c' + 1)) backoff)
            (by omega) (by omega) (fun i hi hik => htr i (by omega) hik)
        simp only [ho]
        refine ⟨h1, ?_, ?_⟩
        · rw [h2, logBeforeAttempt_attempts]
          omega
        · rw [h3, logBeforeAttempt_recordCalls]

theorem retryLoop_allTransient (outcomes : Nat → AttemptOutcome) (maxR : Nat)
    (backoff : ℚ) (t : RateLimitTracker)
    (htr : ∀ i, i ≤ maxR → outcomes i = AttemptOutcome.transient) :
    ∀ c log, c ≤ maxR →
      (retryLoop outcomes maxR backoff t c log).1 = ReqResult.transientError ∧
      (retryLoop outcomes maxR backoff t c log).2.1 = t ∧
      (retryLoop outcomes maxR backoff t c log).2.2.recordCalls =
        log.recordCalls ∧
      (retryLoop outcomes maxR backoff t c log).2.2.attempts =
        log.attempts + c + 1 ∧
      (retryLoop outcomes maxR backoff t c log).2.2.sleeps =
        log.sleeps ++ sleepsFrom backoff (maxR - c) c := by
  intro c
  induction c with
  | zero =>
      intro log _
      have ho : outcomes maxR = AttemptOutcome.transient :=
        htr _ (by omega)
      rw [retryLoop]
      simp only [Nat.sub_zero, ho]
      refine ⟨trivial, trivial, ?_, ?_, ?_⟩
      · rw [logBeforeAttempt_recordCalls]
      · rw [logBeforeAttempt_attempts]
      · rw [logBeforeAttempt_sleeps, sleepsFrom]
        simp
  | succ c' ih =>
      intro log hc
      have ho : outcomes (maxR - (c' + 1)) = AttemptOutcome.transient :=
        htr _ (by omega)
      rw [retryLoop]
      obtain ⟨h1, h2, h3, h4, h5⟩ :=
        ih (logBeforeAttempt log (maxR - (c' + 1)) backoff) (by omega)
      simp only [ho]
      refine ⟨h1, h2, ?_, ?_, ?_⟩
      · rw [h3, logBeforeAttempt_recordCalls]
      · rw [h4, logBeforeAttempt_attempts]
        omega
      · rw [h5, logBeforeAttempt_sleeps, List.append_assoc]
        congr 1
        have hstep : maxR - c' = (maxR - (c' + 1)) + 1 := by omega
        rw [hstep, show ∀ a, sleepsFrom backoff a (c' + 1) =
          (if a > 0 then [backoff ^ a] else []) ++ sleepsFrom backoff (a + 1) c'
          from fun a => by rw [sleepsFrom]]

theorem sleepsFrom_pos (backoff : ℚ) :
    ∀ c a, a > 0 →
      sleepsFrom backoff a c =
        (List.range (c + 1)).map (fun j => backoff ^ (a + j)) := by
  intro c
  induction c with
  | zero =>
      intro a ha
      rw [sleepsFrom]
      simp [ha, List.range_succ]
  | succ c' ih =>
      intro a ha
      rw [sleepsFrom, if_pos ha, ih (a + 1) (by omega)]
      conv_rhs => rw [List.range_succ_eq_map]
      rw [List.map_cons, List.map_map]
      simp only [Nat.add_zero, List.singleton_append]
      congr 1
      apply List.map_congr_left
      intro j _
      simp only [Function.comp_apply]
      congr 1
      omega

theorem sleepsFrom_zero (backoff : ℚ) (maxR : Nat) :
    sleepsFrom backoff 0 maxR =
      (List.range maxR).map (fun j => backoff ^ (j + 1)) := by
  cases maxR with
  | zero => rw [sleepsFrom]; simp
  | succ m =>
      rw [sleepsFrom]
      simp only [gt_iff_lt, lt_irrefl, if_false, List.nil_append]
      rw [sleepsFrom_pos backoff m 1 (by omega)]
      apply List.map_congr_left
      intro j _
      congr 1
      omega

theorem foldl_dictInsert_lookup_notmem {β : Type} (f : String → β) :
    ∀ (keys : List String) (acc : List (String × β)) (k : String), k ∉ keys →
      (keys.foldl (fun a k' => dictInsert a k' (f k')) acc).lookup k =
        acc.lookup k := by
  intro keys
  induction keys with
  | nil =>
      intro acc k _
      rfl
  | cons hd tl ih =>
      intro acc k hnm
      have hne : k ≠ hd := fun hc => hnm (hc ▸ List.mem_cons_self hd tl)
      have htl : k ∉ tl := fun hc => hnm (List.mem_cons_of_mem hd hc)
      rw [List.foldl_cons, ih _ k htl, lookup_dictInsert, if_neg hne]

theorem foldl_dictInsert_fresh {β : Type} (f : String → β) :
    ∀ (keys : List String) (acc : List (String × β)), keys.Nodup →
      (∀ k ∈ keys, acc.lookup k = none) →
      (keys.foldl (fun a k' => dictInsert a k' (f k')) acc).length =
        acc.length + keys.length ∧
      (∀ k ∈ keys,
        (keys.foldl (fun a k' => dictInsert a k' (f k')) acc).lookup k =
          some (f k)) := by
  intro keys
  induction keys with
  | nil =>
      intro acc _ _
      exact ⟨rfl, fun k hk => absurd hk (List.not_mem_nil k)⟩
  | cons hd tl ih =>
      intro acc hnd hfresh
      have hhd : acc.lookup hd = none := hfresh hd (List.mem_cons_self hd tl)
      have hins : dictInsert acc hd (f hd) = acc ++ [(hd, f hd)] := by
        unfold dictInsert
        rw [if_neg (by simp [hhd])]
      have hndtl : tl.Nodup := (List.nodup_cons.mp hnd).2
      have hhdnm : hd ∉ tl := (List.nodup_cons.mp hnd).1
      have hfresh2 : ∀ k ∈ tl, (acc ++ [(hd, f hd)]).lookup k = none := by
        intro k hk
        have hne : k ≠ hd := fun hc => hhdnm (hc ▸ hk)
        rw [lookup_append, hfresh k (List.mem_cons_of_mem hd hk)]
        simp [lookup_cons, hne]
      obtain ⟨hlen, hlook⟩ := ih (acc ++ [(hd, f hd)]) hndtl hfresh2
      rw [List.foldl_cons, hins]
      refine ⟨?_, ?_⟩
      · rw [hlen]
        simp only [List.length_append, List.length_cons, List.length_nil]
        omega
      intro k hk
      rcases List.mem_cons.mp hk with hk | hk
      · subst hk
        rw [foldl_dictInsert_lookup_notmem f tl _ k hhdnm, lookup_append,
          hhd]
        simp [lookup_cons]
      · exact hlook k hk

/-! ## Claim theorems -/

/-- C4: for every sequence of `can_make_request` / `record_request` calls on
a rate limiter, whenever an admission check returns true the request count in
the current window is strictly below capacity; and the window is reset
(count zero, start set to the moment of the check) exactly when
`now - window_start` strictly exceeds the window duration, lazily at the
next check and never earlier (`record_request` never moves the window, and a
check inside the window leaves the tracker untouched). -/
theorem C4_rate_limiter_window_invariant (t : RateLimitTracker)
    (ops : List RLOp) : ∀ e ∈ rlTrace t ops, RLEntryOK e := by
  induction ops generalizing t with
  | nil =>
      intro e he
      simp [rlTrace] at he
  | cons op rest ih =>
      intro e he
      simp only [rlTrace] at he
      rcases List.mem_cons.mp he with he | he
      · subst he
        cases op with
        | canAt now =>
            by_cases hcond : now - t.window_start > t.window_seconds
            · refine ⟨?_, ?_, ?_, ?_⟩
              · intro hres
                simp only [rlStep, RateLimitTracker.can_make_request,
                  hcond, if_pos] at hres ⊢
                have : (0 : Nat) < t.requests_per_window := by
                  have := Option.some.inj hres
                  exact of_decide_eq_true (by simpa using this)
                simpa using this
              · intro _
                exact ⟨now, rfl, hcond⟩
              · intro now' hop _
                cases hop
                simp [rlStep, RateLimitTracker.can_make_request, hcond]
              · intro now' hop hcond'
                cases hop
                exact absurd hcond hcond'
            · refine ⟨?_, ?_, ?_, ?_⟩
              · intro hres
                simp only [rlStep, RateLimitTracker.can_make_request,
                  hcond, if_neg, if_false] at hres ⊢
                have := Option.some.inj hres
                exact of_decide_eq_true (by simpa using this)
              · intro hws
                exact absurd (by simp [rlStep,
                  RateLimitTracker.can_make_request, hcond]) hws
              · intro now' hop hcond'
                cases hop
                exact absurd hcond' hcond
              · intro now' hop _
                cases hop
                simp [rlStep, RateLimitTracker.can_make_request, hcond]
        | record =>
            refine ⟨?_, ?_, ?_, ?_⟩
            · intro hres
              simp [rlStep] at hres
            · intro hws
              exact absurd (by simp [rlStep,
                RateLimitTracker.record_request]) hws
            · intro now' hop
              cases hop
            · intro now' hop
              cases hop
      · exact ih _ _ he

/-- Witness for C4 at a concrete tracker and trace: a single admission check
at instant 3 on a window of duration 10 started at 0 with one of two slots
used. -/
theorem C4_witness :
    RLEntryOK { pre := ⟨2, 10, 1, 0⟩, op := RLOp.canAt 3,
                post := ⟨2, 10, 1, 0⟩, result := some true } :=
  C4_rate_limiter_window_invariant ⟨2, 10, 1, 0⟩ [RLOp.canAt 3] _ (by decide)

/-- C2, counterexample to the claim as stated: a run whose call fails
transiently exactly once (k = 1 < max_retries = 3) and then succeeds
returns success, but `record_request` has been called once, not
k + 1 = 2 times — the source records only the successful attempt (the
failing attempt reached the network yet raised before the
`record_request()` line). -/
theorem C2_counterexample :
    (makeApiRequest ⟨100, 3600, 0, 0⟩ 0
      (fun n => if n < 1 then AttemptOutcome.transient else AttemptOutcome.success)
      3 2).1 = ReqResult.ok ∧
    (makeApiRequest ⟨100, 3600, 0, 0⟩ 0
      (fun n => if n < 1 then AttemptOutcome.transient else AttemptOutcome.success)
      3 2).2.2.recordCalls ≠ 1 + 1 := by decide

/-- C2 (amended): for every execution in which the underlying call fails
transiently exactly k ≤ max_retries times and then succeeds (admission
having been granted), `execute` returns success after k + 1 attempts and the
rate limiter records exactly ONE request — only the successful attempt is
recorded; the k failed attempts, though they reached the network, are not. -/
theorem C2_amended_record_only_success (t : RateLimitTracker) (now : Int)
    (outcomes : Nat → AttemptOutcome) (maxRetries k : Nat) (backoff : ℚ)
    (hgrant : (t.can_make_request now).1 = true)
    (hk : k ≤ maxRetries)
    (ht : ∀ i, i < k → outcomes i = AttemptOutcome.transient)
    (hs : outcomes k = AttemptOutcome.success) :
    (makeApiRequest t now outcomes maxRetries backoff).1 = ReqResult.ok ∧
    (makeApiRequest t now outcomes maxRetries backoff).2.2.attempts = k + 1 ∧
    (makeApiRequest t now outcomes maxRetries backoff).2.2.recordCalls = 1 := by
  have hnt : outcomes k ≠ AttemptOutcome.transient := by
    rw [hs]
    intro h
    cases h
  obtain ⟨h1, h2, h3⟩ :=
    retryLoop_reaches outcomes maxRetries backoff (t.can_make_request now).2 k
      hk hnt maxRetries { ReqLog.empty with canCalls := 1 } (le_refl _)
      (by omega) (fun i _ hik => ht i hik)
  simp only [makeApiRequest, hgrant, if_true]
  refine ⟨?_, ?_, ?_⟩
  · rw [h1, hs]
  · rw [h2]
    simp [ReqLog.empty]
  · rw [h3, hs]
    simp [ReqLog.empty]

/-- Witness for C2 (amended) at the counterexample run: one transient
failure, then success, under max_retries = 3. -/
theorem C2_witness :
    (makeApiRequest ⟨100, 3600, 0, 0⟩ 0
      (fun n => if n < 1 then AttemptOutcome.transient else AttemptOutcome.success)
      3 2).1 = ReqResult.ok ∧
    (makeApiRequest ⟨100, 3600, 0, 0⟩ 0
      (fun n => if n < 1 then AttemptOutcome.transient else AttemptOutcome.success)
      3 2).2.2.attempts = 1 + 1 ∧
    (makeApiRequest ⟨100, 3600, 0, 0⟩ 0
      (fun n => if n < 1 then AttemptOutcome.transient else AttemptOutcome.success)
      3 2).2.2.recordCalls = 1 :=
  C2_amended_record_only_success ⟨100, 3600, 0, 0⟩ 0 _ 3 1 2 (by decide)
    (by decide)
    (fun i hi => by
      have : i = 0 := by omega
      subst this
      rfl)
    (by decide)

/-- C3, counterexample to the claim as stated: admission is NOT asked before
each attempt.  A run with a transient failure and then success performs two
attempts but consults `can_make_request` only once, so the number of
admission checks is smaller than the number of attempts. -/
theorem C3_counterexample :
    (makeApiRequest ⟨100, 3600, 0, 0⟩ 0
      (fun n => if n < 1 then AttemptOutcome.transient else AttemptOutcome.success)
      3 2).2.2.attempts = 2 ∧
    (makeApiRequest ⟨100, 3600, 0, 0⟩ 0
      (fun n => if n < 1 then AttemptOutcome.transient else AttemptOutcome.success)
      3 2).2.2.canCalls = 1 ∧
    ¬((makeApiRequest ⟨100, 3600, 0, 0⟩ 0
      (fun n => if n < 1 then AttemptOutcome.transient else AttemptOutcome.success)
      3 2).2.2.canCalls ≥
      (makeApiRequest ⟨100, 3600, 0, 0⟩ 0
      (fun n => if n < 1 then AttemptOutcome.transient else AttemptOutcome.success)
      3 2).2.2.attempts) := by decide

/-- C3 (amended): the executor asks the rate limiter for admission once per
operation, before the retry loop — not before each attempt.  When admission
is granted the whole run performs exactly one check; when denied, it waits
`min(time_until_reset, 300)` seconds (when positive), re-checks exactly
once, and if still denied raises RateLimitError immediately, with zero
attempts consumed and nothing recorded. -/
theorem C3_amended_single_admission_capped_wait (t : RateLimitTracker)
    (now : Int) (outcomes : Nat → AttemptOutcome) (maxRetries : Nat)
    (backoff : ℚ) :
    ((t.can_make_request now).1 = true →
      (makeApiRequest t now outcomes maxRetries backoff).2.2.canCalls = 1) ∧
    (∀ t1, t.can_make_request now = (false, t1) →
      (makeApiRequest t now outcomes maxRetries backoff).2.2.canCalls = 2 ∧
      (∀ wait now2, wait = t1.time_until_reset now →
        now2 = now + (if wait > 0 then min wait 300 else 0) →
        (t1.can_make_request now2).1 = false →
        makeApiRequest t now outcomes maxRetries backoff =
          (ReqResult.rateLimitError, (t1.can_make_request now2).2,
            { canCalls := 2, recordCalls := 0,
              sleeps := if wait > 0 then [((min wait 300 : Int) : ℚ)] else [],
              attempts := 0 }))) := by
  constructor
  · intro hgrant
    simp only [makeApiRequest, hgrant, if_true]
    rw [retryLoop_canCalls]
  · intro t1 h1
    have hfalse : (t.can_make_request now).1 = false := by rw [h1]
    have ht1 : (t.can_make_request now).2 = t1 := by rw [h1]
    constructor
    · simp only [makeApiRequest, hfalse, Bool.false_eq_true, if_false, ht1]
      cases hc2 : (t1.can_make_request
          (now + if t1.time_until_reset now > 0 then
            min (t1.time_until_reset now) 300 else 0)).1
      · simp [hc2]
      · simp [hc2, retryLoop_canCalls]
    · intro wait now2 hw hn2 hden2
      subst hw
      subst hn2
      simp only [makeApiRequest, hfalse, Bool.false_eq_true, if_false, ht1,
        hden2]
      simp [ReqLog.empty]

/-- Witness for C3 (amended): a limiter at capacity 2 with both slots used,
window of one hour started at 0, checked at instant 10; the wait is capped
at 300 seconds and the re-check at instant 310 is still inside the window,
so the run fails fast with no attempt. -/
theorem C3_witness :
    ((RateLimitTracker.can_make_request ⟨2, 3600, 2, 0⟩ 10).1 = true →
      (makeApiRequest ⟨2, 3600, 2, 0⟩ 10 (fun _ => AttemptOutcome.success)
        3 2).2.2.canCalls = 1) ∧
    (makeApiRequest ⟨2, 3600, 2, 0⟩ 10 (fun _ => AttemptOutcome.success)
        3 2).2.2.canCalls = 2 ∧
    makeApiRequest ⟨2, 3600, 2, 0⟩ 10 (fun _ => AttemptOutcome.success) 3 2 =
      (ReqResult.rateLimitError, ⟨2, 3600, 2, 0⟩,
        { canCalls := 2, recordCalls := 0, sleeps := [((300 : Int) : ℚ)],
          attempts := 0 }) := by
  have h := C3_amended_single_admission_capped_wait ⟨2, 3600, 2, 0⟩ 10
    (fun _ => AttemptOutcome.success) 3 2
  refine ⟨h.1, (h.2 ⟨2, 3600, 2, 0⟩ (by decide)).1, ?_⟩
  have h3 := (h.2 ⟨2, 3600, 2, 0⟩ (by decide)).2
    (RateLimitTracker.time_until_reset ⟨2, 3600, 2, 0⟩ 10)
    (10 + (if RateLimitTracker.time_until_reset ⟨2, 3600, 2, 0⟩ 10 > 0 then
      min (RateLimitTracker.time_until_reset ⟨2, 3600, 2, 0⟩ 10) 300 else 0))
    rfl rfl (by decide)
  rw [h3]
  decide

/-- C5: with admission granted, (a) when every attempt fails transiently the
executor performs exactly max_retries + 1 attempts, sleeping
`backoff_factor ^ attempt` before each retry attempt
(attempts 1 .. max_retries), and surfaces the last transient error; (b) a
non-retryable (fatal) error on attempt j propagates immediately after
j + 1 attempts, consuming none of the remaining retries. -/
theorem C5_backoff_exhaustion_and_fatal_propagation (t : RateLimitTracker)
    (now : Int) (outcomes : Nat → AttemptOutcome) (maxRetries : Nat)
    (backoff : ℚ) (hgrant : (t.can_make_request now).1 = true) :
    ((∀ i, i ≤ maxRetries → outcomes i = AttemptOutcome.transient) →
      (makeApiRequest t now outcomes maxRetries backoff).1 =
        ReqResult.transientError ∧
      (makeApiRequest t now outcomes maxRetries backoff).2.2.attempts =
        maxRetries + 1 ∧
      (makeApiRequest t now outcomes maxRetries backoff).2.2.sleeps =
        (List.range maxRetries).map (fun i => backoff ^ (i + 1))) ∧
    (∀ j, j ≤ maxRetries → outcomes j = AttemptOutcome.fatal →
      (∀ i, i < j → outcomes i = AttemptOutcome.transient) →
      (makeApiRequest t now outcomes maxRetries backoff).1 =
        ReqResult.fatalError ∧
      (makeApiRequest t now outcomes maxRetries backoff).2.2.attempts =
        j + 1) := by
  constructor
  · intro htr
    obtain ⟨h1, _, _, h4, h5⟩ :=
      retryLoop_allTransient outcomes maxRetries backoff
        (t.can_make_request now).2 htr maxRetries
        { ReqLog.empty with canCalls := 1 } (le_refl _)
    simp only [makeApiRequest, hgrant, if_true]
    refine ⟨h1, ?_, ?_⟩
    · rw [h4]
      simp [ReqLog.empty]
    · rw [h5]
      simp only [Nat.sub_self, sleepsFrom_zero]
      simp [ReqLog.empty]
  · intro j hj hfatal htr
    have hnt : outcomes j ≠ AttemptOutcome.transient := by
      rw [hfatal]
      intro h
      cases h
    obtain ⟨h1, h2, _⟩ :=
      retryLoop_reaches outcomes maxRetries backoff (t.can_make_request now).2
        j hj hnt maxRetries { ReqLog.empty with canCalls := 1 } (le_refl _)
        (by omega) (fun i _ hik => htr i hik)
    simp only [makeApiRequest, hgrant, if_true]
    refine ⟨?_, ?_⟩
    · rw [h1, hfatal]
    · rw [h2]
      simp [ReqLog.empty]

/-- Witness for C5 at max_retries = 2, backoff 2: all-transient exhaustion
with sleeps [2, 4], and a fatal error on the second attempt of another
run. -/
theorem C5_witness :
    ((makeApiRequest ⟨100, 3600, 0, 0⟩ 0 (fun _ => AttemptOutcome.transient)
        2 2).1 = ReqResult.transientError ∧
      (makeApiRequest ⟨100, 3600, 0, 0⟩ 0 (fun _ => AttemptOutcome.transient)
        2 2).2.2.attempts = 2 + 1 ∧
      (makeApiRequest ⟨100, 3600, 0, 0⟩ 0 (fun _ => AttemptOutcome.transient)
        2 2).2.2.sleeps =
        (List.range 2).map (fun i => (2 : ℚ) ^ (i + 1))) ∧
    ((makeApiRequest ⟨100, 3600, 0, 0⟩ 0
        (fun n => if n < 1 then AttemptOutcome.transient else AttemptOutcome.fatal)
        2 2).1 = ReqResult.fatalError ∧
      (makeApiRequest ⟨100, 3600, 0, 0⟩ 0
        (fun n => if n < 1 then AttemptOutcome.transient else AttemptOutcome.fatal)
        2 2).2.2.attempts = 1 + 1) := by
  constructor
  · exact (C5_backoff_exhaustion_and_fatal_propagation ⟨100, 3600, 0, 0⟩ 0
      (fun _ => AttemptOutcome.transient) 2 2 (by decide)).1
      (fun i _ => rfl)
  · exact (C5_backoff_exhaustion_and_fatal_propagation ⟨100, 3600, 0, 0⟩ 0
      (fun n => if n < 1 then AttemptOutcome.transient else AttemptOutcome.fatal)
      2 2 (by decide)).2 1 (by decide) (by decide)
      (fun i hi => by
        have : i = 0 := by omega
        subst this
        rfl)

/-- C6: for a batch fetch over N distinct league identifiers that finishes
inside the single overall timeout (`async_timeout_seconds * N` across the
whole gather), the result has exactly N entries keyed by identifier, and
each league's entry depends only on that league's own outcome — a failure
delivered for one league becomes that league's error entry and leaves every
other entry intact; when the overall timeout is exceeded the whole call
fails with the batch-level TimeoutError. -/
theorem C6_batch_isolation_and_timeout {α : Type}
    (availOracle : String → Except String α)
    (taskFault : String → Option String) (aT elapsed : ℚ)
    (league_keys : List String) (dataTypes : List String)
    (hnd : league_keys.Nodup) :
    (elapsed ≤ aT * (league_keys.length : ℚ) →
      ∃ d, fetch_multiple_leagues_data availOracle taskFault aT elapsed
          league_keys dataTypes = Except.ok d ∧
        d.length = league_keys.length ∧
        (∀ k ∈ league_keys, d.lookup k = some
          (match taskFault k with
            | some msg => BatchEntry.errEntry msg
            | none => BatchEntry.entity
                (fetchLeagueData availOracle k dataTypes)))) ∧
    (elapsed > aT * (league_keys.length : ℚ) →
      fetch_multiple_leagues_data availOracle taskFault aT elapsed
        league_keys dataTypes = Except.error "asyncio.TimeoutError") := by
  have hfun : (fun (acc : List (String × BatchEntry α)) k =>
      match taskFault k with
      | some msg => dictInsert acc k (BatchEntry.errEntry msg)
      | none => dictInsert acc k
          (BatchEntry.entity (fetchLeagueData availOracle k dataTypes))) =
      (fun acc k' => dictInsert acc k'
        (match taskFault k' with
          | some msg => BatchEntry.errEntry msg
          | none => BatchEntry.entity
              (fetchLeagueData availOracle k' dataTypes))) := by
    funext acc k
    cases taskFault k <;> rfl
  constructor
  · intro hin
    have hnot : ¬(elapsed > aT * (league_keys.length : ℚ)) := not_lt.mpr hin
    obtain ⟨hlen, hlook⟩ :=
      foldl_dictInsert_fresh
        (fun k' => (match taskFault k' with
          | some msg => BatchEntry.errEntry msg
          | none => BatchEntry.entity
              (fetchLeagueData availOracle k' dataTypes)))
        league_keys [] hnd (fun k _ => rfl)
    refine ⟨league_keys.foldl
      (fun acc k => match taskFault k with
        | some msg => dictInsert acc k (BatchEntry.errEntry msg)
        | none => dictInsert acc k
            (BatchEntry.entity (fetchLeagueData availOracle k dataTypes))) [],
      ?_, ?_, ?_⟩
    · unfold fetch_multiple_leagues_data
      rw [if_neg hnot]
    · rw [hfun]
      simpa using hlen
    · intro k hk
      rw [hfun]
      exact hlook k hk
  · intro hout
    unfold fetch_multiple_leagues_data
    rw [if_pos hout]

/-- Witness for C6: two distinct leagues with a ten-second per-league
budget; within the twenty-second overall ceiling the task fault on `L2`
is captured in place, and at 25 seconds the batch as a whole times out. -/
theorem C6_witness :
    (∃ d, fetch_multiple_leagues_data
        (fun k => if k = "L3" then Except.error "boom" else Except.ok (7 : Nat))
        (fun k => if k = "L2" then some "taskboom" else none) 10 15
        ["L1", "L2"] ["roster", "available_players"] = Except.ok d ∧
      d.length = (["L1", "L2"] : List String).length ∧
      (∀ k ∈ (["L1", "L2"] : List String), d.lookup k = some
        (match (if k = "L2" then some "taskboom" else none : Option String) with
          | some msg => BatchEntry.errEntry msg
          | none => BatchEntry.entity (fetchLeagueData
              (fun k => if k = "L3" then Except.error "boom" else Except.ok (7 : Nat))
              k ["roster", "available_players"])))) ∧
    fetch_multiple_leagues_data
        (fun k => if k = "L3" then Except.error "boom" else Except.ok (7 : Nat))
        (fun k => if k = "L2" then some "taskboom" else none) 10 25
        ["L1", "L2"] ["roster", "available_players"] =
      Except.error "asyncio.TimeoutError" :=
  ⟨(C6_batch_isolation_and_timeout
      (fun k => if k = "L3" then Except.error "boom" else Except.ok (7 : Nat))
      (fun k => if k = "L2" then some "taskboom" else none) 10 15
      ["L1", "L2"] ["roster", "available_players"] (by decide)).1 (by norm_num),
   (C6_batch_isolation_and_timeout
      (fun k => if k = "L3" then Except.error "boom" else Except.ok (7 : Nat))
      (fun k => if k = "L2" then some "taskboom" else none) 10 25
      ["L1", "L2"] ["roster", "available_players"] (by decide)).2 (by norm_num)⟩

/-- C7: when the cache holds a value under the derived key, the fetch
operations return that cached value with the whole fetch state unchanged
(cache, rate-limiter window and counters untouched) and an empty request
log — no admission check, no recorded request, no network attempt. -/
theorem C7_cache_hit_frame {α : Type} (st : FetchState α)
    (outcomes : Nat → AttemptOutcome) (resp resp2 : α)
    (league_key team_key : String) (week : Option Nat)
    (game_key : Option String) (v w : α)
    (h1 : cacheGet st.cache (rosterCacheKey league_key team_key week) = some v)
    (h2 : cacheGet st.cache (userLeaguesCacheKey game_key) = some w) :
    get_roster st outcomes resp league_key team_key week =
      (Except.ok v, st, ReqLog.empty) ∧
    get_user_leagues st outcomes resp2 game_key =
      (Except.ok w, st, ReqLog.empty) := by
  constructor
  · simp only [get_roster, h1]
  · simp only [get_user_leagues, h2]

/-- Witness for C7: a concrete state whose cache holds both keys. -/
theorem C7_witness :
    get_roster (α := Nat)
      ⟨[("roster:L:T:current", ⟨42, 7200, []⟩),
        ("user_leagues:all", ⟨5, 14400, []⟩)], ⟨100, 3600, 0, 0⟩, 0⟩
      (fun _ => AttemptOutcome.success) 99 "L" "T" none =
      (Except.ok 42,
        ⟨[("roster:L:T:current", ⟨42, 7200, []⟩),
          ("user_leagues:all", ⟨5, 14400, []⟩)], ⟨100, 3600, 0, 0⟩, 0⟩,
        ReqLog.empty) ∧
    get_user_leagues (α := Nat)
      ⟨[("roster:L:T:current", ⟨42, 7200, []⟩),
        ("user_leagues:all", ⟨5, 14400, []⟩)], ⟨100, 3600, 0, 0⟩, 0⟩
      (fun _ => AttemptOutcome.success) 99 none =
      (Except.ok 5,
        ⟨[("roster:L:T:current", ⟨42, 7200, []⟩),
          ("user_leagues:all", ⟨5, 14400, []⟩)], ⟨100, 3600, 0, 0⟩, 0⟩,
        ReqLog.empty) :=
  C7_cache_hit_frame
    ⟨[("roster:L:T:current", ⟨42, 7200, []⟩),
      ("user_leagues:all", ⟨5, 14400, []⟩)], ⟨100, 3600, 0, 0⟩, 0⟩
    (fun _ => AttemptOutcome.success) 99 99 "L" "T" none none 42 5
    (by decide) (by decide)

theorem checkAndRefresh_preserves_flags (s : ManagerState) (now buf : Int)
    (storage : Option YahooTokens) (outcome : RefreshOutcome) :
    (checkAndRefreshTokens s now buf storage outcome).state.running =
      s.running ∧
    (checkAndRefreshTokens s now buf storage outcome).state.loopCount =
      s.loopCount := by
  unfold checkAndRefreshTokens
  cases hl : loadTokens s.tokens storage with
  | none => simp [hl]
  | some tk =>
      simp only [hl]
      split
      · cases outcome <;> simp
      · simp

/-- C8: `start()` is idempotent — from a stopped manager, the first `start`
launches exactly one background loop (and runs one immediate
check-and-refresh); a second `start` while running returns the state
untouched apart from the warning signal and launches no second loop. -/
theorem C8_start_idempotent (s : ManagerState) (now now2 buf buf2 : Int)
    (storage storage2 : Option YahooTokens)
    (outcome outcome2 : RefreshOutcome) (h : s.running = false) :
    (managerStart s now buf storage outcome).1.running = true ∧
    (managerStart s now buf storage outcome).1.loopCount = s.loopCount + 1 ∧
    (managerStart s now buf storage outcome).2 = false ∧
    managerStart (managerStart s now buf storage outcome).1 now2 buf2
        storage2 outcome2 =
      ((managerStart s now buf storage outcome).1, true) := by
  obtain ⟨hr, hl⟩ := checkAndRefresh_preserves_flags
    { s with running := true, loopCount := s.loopCount + 1 } now buf storage
    outcome
  have hstart : managerStart s now buf storage outcome =
      ((checkAndRefreshTokens
        { s with running := true, loopCount := s.loopCount + 1 } now buf
        storage outcome).state, false) := by
    unfold managerStart
    rw [if_neg (by simp [h])]
  rw [hstart]
  refine ⟨hr, hl, rfl, ?_⟩
  unfold managerStart
  rw [if_pos (by simp [hr])]

/-- Witness for C8: two consecutive starts from a freshly constructed
manager (no credentials anywhere) leave exactly one loop running and the
second call is a warning-only no-op. -/
theorem C8_witness :
    (managerStart ⟨none, AuthState.UNAUTHENTICATED, none, none, 0, false, 0⟩
      0 10 none (RefreshOutcome.transientFailure "x")).1.running = true ∧
    (managerStart ⟨none, AuthState.UNAUTHENTICATED, none, none, 0, false, 0⟩
      0 10 none (RefreshOutcome.transientFailure "x")).1.loopCount = 0 + 1 ∧
    (managerStart ⟨none, AuthState.UNAUTHENTICATED, none, none, 0, false, 0⟩
      0 10 none (RefreshOutcome.transientFailure "x")).2 = false ∧
    managerStart
      (managerStart ⟨none, AuthState.UNAUTHENTICATED, none, none, 0, false, 0⟩
        0 10 none (RefreshOutcome.transientFailure "x")).1
      300 10 none (RefreshOutcome.transientFailure "x") =
      ((managerStart ⟨none, AuthState.UNAUTHENTICATED, none, none, 0, false, 0⟩
        0 10 none (RefreshOutcome.transientFailure "x")).1, true) :=
  C8_start_idempotent ⟨none, AuthState.UNAUTHENTICATED, none, none, 0, false, 0⟩
    0 300 10 10 none none (RefreshOutcome.transientFailure "x")
    (RefreshOutcome.transientFailure "x") rfl

/-- C1, counterexample to the claim as stated: after a refresh failure
carrying the permanent invalid_grant signal, Auth State is REFRESH_FAILED,
yet the very next scheduled check-and-refresh cycle (credentials unreplaced:
the stored token is unchanged and still inside the refresh buffer) DOES
attempt another automatic refresh — nothing in
`_check_and_refresh_tokens` suppresses refresh attempts after a permanent
failure. -/
theorem C1_counterexample :
    ((checkAndRefreshTokens
        ⟨some ⟨"a", "r", "Bearer", 1000, "fspt-r"⟩, AuthState.AUTHENTICATED,
          none, none, 0, true, 1⟩ 2000 10 none
        (RefreshOutcome.invalidGrant "invalid_grant")).state.authState =
      AuthState.REFRESH_FAILED) ∧
    (checkAndRefreshTokens
        (checkAndRefreshTokens
          ⟨some ⟨"a", "r", "Bearer", 1000, "fspt-r"⟩, AuthState.AUTHENTICATED,
            none, none, 0, true, 1⟩ 2000 10 none
          (RefreshOutcome.invalidGrant "invalid_grant")).state 2300 10 none
        (RefreshOutcome.invalidGrant "invalid_grant")).attemptedRefresh =
      true := by decide

/-- C1 (amended): a refresh failure with the permanent invalid_grant signal
drives Auth State to REFRESH_FAILED and records the
manual-re-authentication error, without replacing the held credentials; but
the manager keeps attempting an automatic refresh on every subsequent
scheduled cycle while the (unreplaced) credentials stay inside the refresh
buffer — there is no suppression until new credentials are supplied
externally. -/
theorem C1_amended_refresh_failed_still_retries (s : ManagerState)
    (now buf now2 : Int) (storage : Option YahooTokens) (tk : YahooTokens)
    (msg : String) (outcome2 : RefreshOutcome)
    (hload : loadTokens s.tokens storage = some tk)
    (hexp : tk.expires_at - now ≤ buf * 60)
    (hexp2 : tk.expires_at - now2 ≤ buf * 60) :
    (checkAndRefreshTokens s now buf storage
      (RefreshOutcome.invalidGrant msg)).state.authState =
      AuthState.REFRESH_FAILED ∧
    (checkAndRefreshTokens s now buf storage
      (RefreshOutcome.invalidGrant msg)).state.lastError =
      some "Refresh token expired - manual auth required" ∧
    (checkAndRefreshTokens s now buf storage
      (RefreshOutcome.invalidGrant msg)).state.tokens = some tk ∧
    (checkAndRefreshTokens s now buf storage
      (RefreshOutcome.invalidGrant msg)).attemptedRefresh = true ∧
    (checkAndRefreshTokens
      (checkAndRefreshTokens s now buf storage
        (RefreshOutcome.invalidGrant msg)).state now2 buf none
      outcome2).attemptedRefresh = true := by
  have h1 : checkAndRefreshTokens s now buf storage
      (RefreshOutcome.invalidGrant msg) =
      { state := { s with
          tokens := some tk
          authState := AuthState.REFRESH_FAILED
          lastError := some "Refresh token expired - manual auth required" },
        returned := false, attemptedRefresh := true } := by
    unfold checkAndRefreshTokens
    rw [hload]
    simp only []
    rw [if_pos hexp]
  rw [h1]
  refine ⟨rfl, rfl, rfl, rfl, ?_⟩
  unfold checkAndRefreshTokens
  simp only [loadTokens]
  rw [if_pos hexp2]
  cases outcome2 <;> rfl

/-- Witness for C1 (amended): an expired token (expiry 1000, checked at
2000 with a ten-minute buffer), permanent failure, and a second cycle at
2300 that still attempts the refresh. -/
theorem C1_witness :
    ((checkAndRefreshTokens
        ⟨some ⟨"a", "r", "Bearer", 1000, "fspt-r"⟩, AuthState.AUTHENTICATED,
          none, none, 0, true, 1⟩ 2000 10 none
        (RefreshOutcome.invalidGrant "invalid_grant token revoked")).state.authState =
      AuthState.REFRESH_FAILED) ∧
    ((checkAndRefreshTokens
        ⟨some ⟨"a", "r", "Bearer", 1000, "fspt-r"⟩, AuthState.AUTHENTICATED,
          none, none, 0, true, 1⟩ 2000 10 none
        (RefreshOutcome.invalidGrant "invalid_grant token revoked")).state.lastError =
      some "Refresh token expired - manual auth required") ∧
    ((checkAndRefreshTokens
        ⟨some ⟨"a", "r", "Bearer", 1000, "fspt-r"⟩, AuthState.AUTHENTICATED,
          none, none, 0, true, 1⟩ 2000 10 none
        (RefreshOutcome.invalidGrant "invalid_grant token revoked")).state.tokens =
      some ⟨"a", "r", "Bearer", 1000, "fspt-r"⟩) ∧
    ((checkAndRefreshTokens
        ⟨some ⟨"a", "r", "Bearer", 1000, "fspt-r"⟩, AuthState.AUTHENTICATED,
          none, none, 0, true, 1⟩ 2000 10 none
        (RefreshOutcome.invalidGrant "invalid_grant token revoked")).attemptedRefresh =
      true) ∧
    (checkAndRefreshTokens
      (checkAndRefreshTokens
        ⟨some ⟨"a", "r", "Bearer", 1000, "fspt-r"⟩, AuthState.AUTHENTICATED,
          none, none, 0, true, 1⟩ 2000 10 none
        (RefreshOutcome.invalidGrant "invalid_grant token revoked")).state
      2300 10 none
      (RefreshOutcome.invalidGrant "invalid_grant token revoked")).attemptedRefresh =
      true :=
  C1_amended_refresh_failed_still_retries
    ⟨some ⟨"a", "r", "Bearer", 1000, "fspt-r"⟩, AuthState.AUTHENTICATED,
      none, none, 0, true, 1⟩ 2000 10 2300 none
    ⟨"a", "r", "Bearer", 1000, "fspt-r"⟩ "invalid_grant token revoked"
    (RefreshOutcome.invalidGrant "invalid_grant token revoked")
    rfl (by decide) (by decide)

/-- C9, counterexample to the claim as stated: a league whose (non-empty)
team list consists of a single team record carrying no `team_key` field
makes `get_user_team_key` return None even though the team list is
non-empty — the fallback returns the first team's key entry, which is
itself absent. -/
theorem C9_counterexample :
    get_user_team_key
      (Except.ok [(⟨none, none, []⟩ : TeamEntry)]) "" = none ∧
    ([(⟨none, none, []⟩ : TeamEntry)] : List TeamEntry) ≠ [] := by decide

/-- C9 (amended): for every league, `get_user_team_key` returns exactly the
`team_key` entry of the preferred team — a team flagged as owned by the
current login first, then (when a user GUID is configured) a team with a
matching manager GUID, otherwise the first team — so it returns some team
key whenever the team list is non-empty and the chosen team's record
carries a key; an error from the inner team fetch yields None instead of
raising. -/
theorem C9_amended_team_key_lookup
    (fetchResult : Except String (List TeamEntry))
    (teams : List TeamEntry) (user_guid : String) :
    (∀ e, fetchResult = Except.error e →
      get_user_team_key fetchResult user_guid = none) ∧
    (fetchResult = Except.ok teams →
      get_user_team_key fetchResult user_guid =
        (preferredTeam teams user_guid).bind (fun t => t.team_key)) ∧
    (fetchResult = Except.ok teams →
      ∀ t, preferredTeam teams user_guid = some t → t.team_key.isSome →
        (get_user_team_key fetchResult user_guid).isSome) := by
  have hval : fetchResult = Except.ok teams →
      get_user_team_key fetchResult user_guid =
        (preferredTeam teams user_guid).bind (fun t => t.team_key) := by
    intro hok
    subst hok
    cases teams with
    | nil => rfl
    | cons t0 rest =>
        cases hf : (t0 :: rest).find?
            (fun t => t.is_owned_by_current_login == some true) with
        | some t => simp [get_user_team_key, preferredTeam, hf]
        | none =>
            by_cases hg : user_guid = ""
            · simp [get_user_team_key, preferredTeam, hf, hg]
            · cases hf2 : (t0 :: rest).find?
                  (fun t => t.managers.any (managerGuidMatches user_guid)) with
              | some t => simp [get_user_team_key, preferredTeam, hf, hf2, hg]
              | none => simp [get_user_team_key, preferredTeam, hf, hf2, hg]
  refine ⟨?_, hval, ?_⟩
  · intro e he
    subst he
    rfl
  · intro hok t hpt hkey
    rw [hval hok, hpt]
    simpa using hkey

/-- Witness for C9 (amended): the three clauses at concrete inputs — an
erroring fetch; a league whose second team is flagged as owned (the value
equals the preferred team's key entry); and a league whose keyless first
team is passed over for the GUID-matched second team, which carries a key,
so some key is returned even though a sibling record lacks one. -/
theorem C9_witness :
    get_user_team_key (Except.error "boom") "g" = none ∧
    get_user_team_key
      (Except.ok [(⟨some "k1", none, []⟩ : TeamEntry),
        ⟨some "k2", some true, []⟩]) "g" =
      (preferredTeam [(⟨some "k1", none, []⟩ : TeamEntry),
        ⟨some "k2", some true, []⟩] "g").bind (fun t => t.team_key) ∧
    (get_user_team_key
      (Except.ok [(⟨none, none, []⟩ : TeamEntry),
        ⟨some "k2", none, [⟨some "g"⟩]⟩]) "g").isSome := by
  refine ⟨?_, ?_, ?_⟩
  · exact (C9_amended_team_key_lookup (Except.error "boom") [] "g").1 "boom" rfl
  · exact (C9_amended_team_key_lookup _
      [(⟨some "k1", none, []⟩ : TeamEntry), ⟨some "k2", some true, []⟩]
      "g").2.1 rfl
  · exact (C9_amended_team_key_lookup _
      [(⟨none, none, []⟩ : TeamEntry), ⟨some "k2", none, [⟨some "g"⟩]⟩]
      "g").2.2 rfl ⟨some "k2", none, [⟨some "g"⟩]⟩ (by decide) (by decide)

theorem transform_player_keys (p : YfpyPlayer) (k : String)
    (hk : k = "player_key" ∨ k = "name" ∨ k = "position" ∨ k = "team") :
    ((transform_yahoo_player p).lookup k).isSome := by
  unfold transform_yahoo_player
  cases hpp : p.player_points with
  | none =>
      simp only [transformBody, hpp]
      apply lookup_applyUpdates_isSome
      rcases hk with rfl | rfl | rfl | rfl <;> simp [lookup_cons]
  | some pp =>
      cases pp with
      | withoutTotal =>
          simp only [transformBody, hpp]
          rcases hk with rfl | rfl | rfl | rfl <;>
            simp [minimalPlayerInfo, lookup_cons]
      | withTotal tt =>
          simp only [transformBody, hpp]
          apply lookup_applyUpdates_isSome
          rcases hk with rfl | rfl | rfl | rfl <;> simp [lookup_cons]

/-- C10: the player transformation is total — for every provider player
object the returned dict carries at least the keys player_key, name,
position and team, and when the body raises (the unguarded
`player_points.total` access) the result is instead the minimal fallback
dict carrying the error text under the `error` key; nothing propagates to
the caller. -/
theorem C10_transform_total (p : YfpyPlayer) :
    ((transform_yahoo_player p).lookup "player_key").isSome ∧
    ((transform_yahoo_player p).lookup "name").isSome ∧
    ((transform_yahoo_player p).lookup "position").isSome ∧
    ((transform_yahoo_player p).lookup "team").isSome ∧
    (∀ e, transformBody p = Except.error e →
      (transform_yahoo_player p).lookup "error" = some (PVal.s e)) := by
  refine ⟨transform_player_keys p _ (Or.inl rfl),
    transform_player_keys p _ (Or.inr (Or.inl rfl)),
    transform_player_keys p _ (Or.inr (Or.inr (Or.inl rfl))),
    transform_player_keys p _ (Or.inr (Or.inr (Or.inr rfl))), ?_⟩
  intro e he
  unfold transform_yahoo_player
  rw [he]
  simp [minimalPlayerInfo, lookup_cons]

/-- Witness for C10 at a player whose truthy `player_points` object lacks
the `total` attribute: the four keys are present and the error entry
carries the exception text. -/
theorem C10_witness :
    ((transform_yahoo_player
      ⟨some "pk", none, none, none, none, none, none, none, none, none, none,
        none, none, none, none, none, none,
        some PlayerPoints.withoutTotal⟩).lookup "player_key").isSome ∧
    ((transform_yahoo_player
      ⟨some "pk", none, none, none, none, none, none, none, none, none, none,
        none, none, none, none, none, none,
        some PlayerPoints.withoutTotal⟩).lookup "name").isSome ∧
    ((transform_yahoo_player
      ⟨some "pk", none, none, none, none, none, none, none, none, none, none,
        none, none, none, none, none, none,
        some PlayerPoints.withoutTotal⟩).lookup "position").isSome ∧
    ((transform_yahoo_player
      ⟨some "pk", none, none, none, none, none, none, none, none, none, none,
        none, none, none, none, none, none,
        some PlayerPoints.withoutTotal⟩).lookup "team").isSome ∧
    (transform_yahoo_player
      ⟨some "pk", none, none, none, none, none, none, none, none, none, none,
        none, none, none, none, none, none,
        some PlayerPoints.withoutTotal⟩).lookup "error" =
      some (PVal.s
        "AttributeError: PlayerPoints object has no attribute total") := by
  have h := C10_transform_total
    ⟨some "pk", none, none, none, none, none, none, none, none, none, none,
      none, none, none, none, none, none, some PlayerPoints.withoutTotal⟩
  exact ⟨h.1, h.2.1, h.2.2.1, h.2.2.2.1, h.2.2.2.2 _ rfl⟩

end FantasyFootball
